import Mathlib

/-!
Verification of the NBA data-collection script (`src/scripts/data_colection.py`).

The script's pandas data frames are embedded as `DataFrame` (a column list
plus rows, each row an association list from column name to `Value`);
pandas operations that can raise `KeyError` return `Except String _`.
The retry wrapper is embedded as a recursion over the remaining attempt
count, with the operation modelled as a function from the attempt index to
an `Outcome`; the embedding additionally counts invocations and total
seconds slept so that the retry claims can be stated exactly.
The orchestrator `main` is embedded as a trace of `Event`s produced from an
environment that supplies the remote provider's responses.
-/

/-- A scalar cell value of a tabular record set. -/
inductive Value where
  | str : String → Value
  | int : Int → Value
deriving DecidableEq, Repr, BEq

/-- A row: an association list from column name to cell value. -/
abbrev Row := List (String × Value)

/-- Lookup of a column's value in a row (first binding wins, as in an
association list; pandas rows have unique column labels). -/
def rowGet (r : Row) (c : String) : Option Value :=
  match r with
  | [] => none
  | (k, v) :: rest => if k = c then some v else rowGet rest c

/-- A pandas `DataFrame`: an explicit column list plus the rows. -/
structure DataFrame where
  columns : List String
  rows : List Row
deriving DecidableEq, Repr

/-- `df[df[c] == v]`: keep the rows whose cell at column `c` equals `v`;
raises `KeyError` (modelled as `Except.error`) when `c` is not a column. -/
def DataFrame.filterEq (df : DataFrame) (c : String) (v : Value) :
    Except String DataFrame :=
  if c ∈ df.columns then
    Except.ok { columns := df.columns,
                rows := df.rows.filter (fun r => rowGet r c = some v) }
  else
    Except.error ("KeyError: " ++ c)

/-- Projection of one row to the given columns, keeping the given column
order; a column whose cell is missing contributes nothing. -/
def projRow (cs : List String) (r : Row) : Row :=
  cs.filterMap (fun c => (rowGet r c).map (fun v => (c, v)))

/-- `df[[c1, ..., cn]]`: column selection; raises `KeyError` when one of the
requested columns is not a column of the frame. -/
def DataFrame.select (df : DataFrame) (cs : List String) :
    Except String DataFrame :=
  if cs.all (fun c => c ∈ df.columns) then
    Except.ok { columns := cs, rows := df.rows.map (projRow cs) }
  else
    Except.error "KeyError: column not found"

/-- `df[c] = v` with a scalar `v`: set column `c` to `v` on every row;
pandas puts a newly created column last. -/
def assignRow (k : String) (v : Value) (r : Row) : Row :=
  r.filter (fun p => ¬ p.1 = k) ++ [(k, v)]

/-- `df[c] = v` at the frame level. -/
def DataFrame.assign (df : DataFrame) (c : String) (v : Value) : DataFrame :=
  { columns := if c ∈ df.columns then df.columns else df.columns ++ [c],
    rows := df.rows.map (assignRow c v) }

/-- `pd.concat([df1, df2], ignore_index=True)`: rows appended in order. -/
def DataFrame.concat (df1 df2 : DataFrame) : DataFrame :=
  { columns := df1.columns ++ df2.columns.filter (fun c => ¬ c ∈ df1.columns),
    rows := df1.rows ++ df2.rows }

/-- `df.rename(columns=...)` for a renaming given as a function. -/
def DataFrame.renameCols (df : DataFrame) (f : String → String) : DataFrame :=
  { columns := df.columns.map f,
    rows := df.rows.map (List.map (fun p => (f p.1, p.2))) }

/-! ## Retry Executor (`retry_request`) -/

/-- One invocation's result: success, a transient network failure
(`ConnectionError` / `Timeout`, caught by the wrapper) or any other
exception (propagated). -/
inductive Outcome (α : Type) where
  | ok : α → Outcome α
  | transient : String → Outcome α
  | fatal : String → Outcome α
deriving DecidableEq, Repr

/-- Whether an invocation outcome is a transient network failure. -/
def Outcome.isTransient {α : Type} : Outcome α → Bool
  | Outcome.transient _ => true
  | _ => false

/-- What `retry_request` terminates with: the operation's value, a
propagated non-transient exception, or the final
`Exception(f"Falha após {retries} tentativas.")`. -/
inductive RetryOutcome (α : Type) where
  | ok : α → RetryOutcome α
  | fatal : String → RetryOutcome α
  | exhausted : String → RetryOutcome α
deriving DecidableEq, Repr

/-- The loop `for attempt in range(retries)` of `retry_request`.  The
operation is a function from the attempt index to its outcome.  Returns
the final outcome together with the number of invocations made and the
total seconds slept (`time.sleep(delay)` runs after every caught transient
failure, including the last one before the final raise). -/
def retry_loop {α : Type} (f : Nat → Outcome α) (retries delay : Nat) :
    Nat → Nat → RetryOutcome α × Nat × Nat
  | _, 0 =>
    (RetryOutcome.exhausted
       ("Falha após " ++ toString retries ++ " tentativas."), 0, 0)
  | attempt, remaining + 1 =>
    match f attempt with
    | Outcome.ok v => (RetryOutcome.ok v, 1, 0)
    | Outcome.fatal e => (RetryOutcome.fatal e, 1, 0)
    | Outcome.transient _ =>
      let rest := retry_loop f retries delay (attempt + 1) remaining
      (rest.1, rest.2.1 + 1, rest.2.2 + delay)

/-- `retry_request(func, retries=..., delay=...)` (the script's defaults are
`retries=5`, `delay=10`). -/
def retry_request {α : Type} (f : Nat → Outcome α) (retries delay : Nat) :
    RetryOutcome α × Nat × Nat :=
  retry_loop f retries delay 0 retries

/-- The script's default number of attempts. -/
def retries_default : Nat := 5

/-- The script's default delay between attempts, in seconds. -/
def delay_default : Nat := 10

/-! ## Roster Filter (`get_player_ids`) -/

/-- Insertion into a Python `dict` modelled as an ordered association
list: an existing key keeps its position and takes the new value, a new
key is appended. -/
def dictInsert (d : List (String × Option Value)) (k : String)
    (v : Option Value) : List (String × Option Value) :=
  if d.any (fun p => p.1 = k) then
    d.map (fun p => if p.1 = k then (k, v) else p)
  else
    d ++ [(k, v)]

/-- `dict(zip(ks, vs))` for an already-zipped list of pairs: left-to-right
insertion, so a duplicated key keeps its first position and last value. -/
def dictOfPairs (ps : List (String × Option Value)) :
    List (String × Option Value) :=
  ps.foldl (fun d p => dictInsert d p.1 p.2) []

/-- The mask `roster_df['PLAYER'].isin(players)` on one row: true when the
cell is a string that is a member of the requested list (a missing cell is
pandas `NaN`, which `isin` never matches). -/
def playerMatches (players : List String) (r : Row) : Bool :=
  match rowGet r "PLAYER" with
  | some (Value.str p) => players.contains p
  | _ => false

/-- The name a filtered roster row contributes as a `dict` key (on the
filtered rows the `PLAYER` cell is always a string, so the default is
never used). -/
def playerKey (r : Row) : String :=
  match rowGet r "PLAYER" with
  | some (Value.str p) => p
  | _ => ""

/-- `get_player_ids(roster_df, players)`: filter the roster to the rows
whose `PLAYER` is in `players`; on an empty result print a warning (the
returned `Bool`) and return the empty dict, otherwise return
`dict(zip(filtered['PLAYER'], filtered['PLAYER_ID']))`.  Column access
can raise `KeyError`; `filtered['PLAYER_ID']` is only reached on the
non-empty branch. -/
def get_player_ids (roster_df : DataFrame) (players : List String) :
    Except String (List (String × Option Value) × Bool) :=
  if "PLAYER" ∈ roster_df.columns then
    let filtered := roster_df.rows.filter (playerMatches players)
    if filtered.isEmpty then
      Except.ok ([], true)
    else if "PLAYER_ID" ∈ roster_df.columns then
      Except.ok
        (dictOfPairs (filtered.map (fun r => (playerKey r, rowGet r "PLAYER_ID"))),
         false)
    else
      Except.error "KeyError: PLAYER_ID"
  else
    Except.error "KeyError: PLAYER"

/-! ## Conference Aggregator (`listar_times_por_conferencia`,
`obter_classificacao_atual`) -/

/-- The frame-transformation part of `listar_times_por_conferencia`:
given the fetched standings frame, build the per-conference team listing
(the CSV write happens after all of this and is skipped on any raised
`KeyError`). -/
def listar_times_por_conferencia (df_standings : DataFrame) :
    Except String DataFrame := do
  let leste0 ← df_standings.filterEq "Conference" (Value.str "East")
  let leste1 ← leste0.select ["TeamName", "TeamID"]
  let conferencia_leste := leste1.assign "Conferencia" (Value.str "Leste")
  let oeste0 ← df_standings.filterEq "Conference" (Value.str "West")
  let oeste1 ← oeste0.select ["TeamName", "TeamID"]
  let conferencia_oeste := oeste1.assign "Conferencia" (Value.str "Oeste")
  let df_times := (conferencia_leste.concat conferencia_oeste).renameCols
    (fun c => if c = "TeamName" then "Nome" else if c = "TeamID" then "ID" else c)
  Except.ok df_times

/-- The desired-column list of the classification view. -/
def columns_required : List String := ["TeamName", "Conference", "WinPCT"]

/-- The frame-transformation part of `obter_classificacao_atual`: compute
`columns_available` as the desired columns actually present, raise
`KeyError` when `Conference` is absent, then partition, label and
concatenate (the CSV write happens after all of this). -/
def obter_classificacao_atual (df_standings : DataFrame) :
    Except String DataFrame := do
  let columns_available := columns_required.filter (fun c => c ∈ df_standings.columns)
  if "Conference" ∈ df_standings.columns then
    let standings_leste0 ← df_standings.filterEq "Conference" (Value.str "East")
    let standings_leste1 ← standings_leste0.select columns_available
    let standings_oeste0 ← df_standings.filterEq "Conference" (Value.str "West")
    let standings_oeste1 ← standings_oeste0.select columns_available
    let standings_leste := standings_leste1.assign "Conferencia" (Value.str "Leste")
    let standings_oeste := standings_oeste1.assign "Conferencia" (Value.str "Oeste")
    Except.ok (standings_leste.concat standings_oeste)
  else
    Except.error "A coluna Conference não está disponível no DataFrame retornado."

/-! ## Run Orchestrator (`main`) -/

/-- An observable step of a run: a remote fetch, a CSV write, or a pacing
sleep of a number of seconds. -/
inductive Event where
  | fetchTeamGameLog : Int → String → Event
  | fetchTeamRoster : Int → String → Event
  | fetchPlayerGameLog : Option Value → String → Event
  | fetchLeagueStandings : Event
  | persist : String → Event
  | sleep : Nat → Event
deriving DecidableEq, Repr

/-- The remote provider's responses, one primary table per endpoint. -/
structure Env where
  teamGameLog : Int → String → DataFrame
  teamRoster : Int → String → DataFrame
  playerGameLog : Option Value → String → DataFrame
  standings : DataFrame

/-- The script's hard-coded team identifier (Memphis Grizzlies). -/
def team_id : Int := 1610612763

/-- The script's hard-coded season list. -/
def seasons : List String := ["2023-24", "2024-25"]

/-- The script's hard-coded requested player names. -/
def players_config : List String :=
  ["Ja Morant", "Desmond Bane", "Jaren Jackson Jr."]

/-- The team-level part of `main`'s per-season loop: fetch and persist
the team game log, sleep 2 seconds; fetch and persist the roster, sleep 2
seconds. -/
def season_team_events (teamId : Int) (season : String) : List Event :=
  [Event.fetchTeamGameLog teamId season,
   Event.persist ("data/raw/" ++ season.replace "/" "-" ++ "/team/games_"
     ++ season.replace "/" "-" ++ ".csv"),
   Event.sleep 2,
   Event.fetchTeamRoster teamId season,
   Event.persist ("data/raw/" ++ season.replace "/" "-" ++ "/team/roster_"
     ++ season.replace "/" "-" ++ ".csv"),
   Event.sleep 2]

/-- One iteration of `main`'s inner player loop: fetch and persist the
player's game log, sleep 3 seconds. -/
def player_events (season : String) (pp : String × Option Value) :
    List Event :=
  [Event.fetchPlayerGameLog pp.2 season,
   Event.persist ("data/raw/" ++ season.replace "/" "-" ++ "/players/"
     ++ pp.1.replace " " "_" ++ "_games_" ++ season.replace "/" "-" ++ ".csv"),
   Event.sleep 3]

/-- The body of `main`'s per-season loop as an event trace: the team-level
steps, then for each entry of `get_player_ids(roster, players)` the player
steps. -/
def season_events (env : Env) (teamId : Int) (players : List String)
    (season : String) : Except String (List Event) := do
  let pids ← get_player_ids (env.teamRoster teamId season) players
  Except.ok (season_team_events teamId season ++
    pids.1.flatMap (player_events season))

/-- The post-season phase of `main` as an event trace:
`listar_times_por_conferencia()` fetches the standings itself and persists
its output, then `obter_classificacao_atual()` fetches the standings again
and persists its output.  No pacing sleep follows either. -/
def standings_events (env : Env) : Except String (List Event) := do
  let _ ← listar_times_por_conferencia env.standings
  let _ ← obter_classificacao_atual env.standings
  Except.ok
    [Event.fetchLeagueStandings,
     Event.persist "data/raw/times_por_conferencia.csv",
     Event.fetchLeagueStandings,
     Event.persist "data/raw/classificacao_por_conferencia.csv"]

/-- The per-season loop of `main`: the seasons' traces in order. -/
def seasons_events (env : Env) : List String → Except String (List Event)
  | [] => Except.ok []
  | s :: rest => do
    let es ← season_events env team_id players_config s
    let esRest ← seasons_events env rest
    Except.ok (es ++ esRest)

/-- The whole run of `main` as an event trace. -/
def main_events (env : Env) : Except String (List Event) := do
  let seasonTraces ← seasons_events env seasons
  let confTrace ← standings_events env
  Except.ok (seasonTraces ++ confTrace)

/-- Checks that every `persist` event is immediately followed by a `sleep`
event (the pacing discipline of the per-season loop). -/
def pacing_ok : List Event → Bool
  | [] => true
  | [Event.persist _] => false
  | Event.persist _ :: e :: rest =>
    (match e with
     | Event.sleep _ => true
     | _ => false) && pacing_ok (e :: rest)
  | _ :: rest => pacing_ok rest

/-! ## Concrete sample data -/

/-- A sample standings table with every desired column present, two East
rows, one West row and one row of an unknown conference. -/
def standings0 : DataFrame :=
  { columns := ["TeamName", "TeamID", "Conference", "WinPCT"],
    rows :=
      [[("TeamName", Value.str "Celtics"), ("TeamID", Value.int 1),
        ("Conference", Value.str "East"), ("WinPCT", Value.str "0.780")],
       [("TeamName", Value.str "Grizzlies"), ("TeamID", Value.int 2),
        ("Conference", Value.str "West"), ("WinPCT", Value.str "0.330")],
       [("TeamName", Value.str "Knicks"), ("TeamID", Value.int 3),
        ("Conference", Value.str "East"), ("WinPCT", Value.str "0.610")],
       [("TeamName", Value.str "Wanderers"), ("TeamID", Value.int 4),
        ("Conference", Value.str "Unknown"), ("WinPCT", Value.str "0.500")]] }

/-- A standings table whose `Conference` column is absent. -/
def standingsNoConf : DataFrame :=
  { columns := ["TeamName", "TeamID", "WinPCT"],
    rows := [[("TeamName", Value.str "Celtics"), ("TeamID", Value.int 1),
              ("WinPCT", Value.str "0.780")]] }

/-- A standings table with `Conference` and `TeamName` present but the
desired non-partition column `TeamID` absent. -/
def standingsNoTeamID : DataFrame :=
  { columns := ["TeamName", "Conference"],
    rows := [[("TeamName", Value.str "Celtics"),
              ("Conference", Value.str "East")]] }

/-- A sample roster table whose `PLAYER` column matches all three
requested players, plus one unrequested player. -/
def roster0 : DataFrame :=
  { columns := ["PLAYER", "PLAYER_ID"],
    rows :=
      [[("PLAYER", Value.str "Ja Morant"), ("PLAYER_ID", Value.int 1)],
       [("PLAYER", Value.str "Desmond Bane"), ("PLAYER_ID", Value.int 2)],
       [("PLAYER", Value.str "Jaren Jackson Jr."), ("PLAYER_ID", Value.int 3)],
       [("PLAYER", Value.str "Someone Else"), ("PLAYER_ID", Value.int 4)]] }

/-- A sample single-row game-log table (its content is irrelevant to the
orchestration claims). -/
def gamelog0 : DataFrame :=
  { columns := ["GAME_ID"], rows := [[("GAME_ID", Value.int 100)]] }

/-- A sample provider environment: every fetch succeeds and returns the
sample tables above. -/
def env0 : Env :=
  { teamGameLog := fun _ _ => gamelog0,
    teamRoster := fun _ _ => roster0,
    playerGameLog := fun _ _ => gamelog0,
    standings := standings0 }

/-- The rows of a standings table whose `Conference` cell equals the given
conference name. -/
def conf_rows (df : DataFrame) (conf : String) : List Row :=
  df.rows.filter (fun r => rowGet r "Conference" = some (Value.str conf))

/-! ## Lemmas about the retry loop -/

theorem retry_loop_exhausts {α : Type} (f : Nat → Outcome α) (R d : Nat) :
    ∀ remaining attempt,
      (∀ i, i < remaining → (f (attempt + i)).isTransient = true) →
      retry_loop f R d attempt remaining =
        (RetryOutcome.exhausted ("Falha após " ++ toString R ++ " tentativas."),
         remaining, remaining * d)
  | 0, attempt, _ => by simp [retry_loop]
  | remaining + 1, attempt, h => by
    have h0 : (f attempt).isTransient = true := by
      simpa using h 0 (Nat.succ_pos _)
    cases hf : f attempt with
    | ok v => rw [hf] at h0; simp [Outcome.isTransient] at h0
    | fatal e => rw [hf] at h0; simp [Outcome.isTransient] at h0
    | transient e =>
      have ih := retry_loop_exhausts f R d remaining (attempt + 1)
        (fun i hi => by
          have := h (i + 1) (Nat.succ_lt_succ hi)
          rwa [← Nat.add_assoc, Nat.add_right_comm attempt i 1] at this)
      simp [retry_loop, hf, ih, Nat.succ_mul]

theorem retry_loop_success {α : Type} (f : Nat → Outcome α) (R d : Nat) (v : α) :
    ∀ k attempt remaining, k < remaining →
      (∀ i, i < k → (f (attempt + i)).isTransient = true) →
      f (attempt + k) = Outcome.ok v →
      retry_loop f R d attempt remaining = (RetryOutcome.ok v, k + 1, k * d)
  | 0, attempt, remaining, hk, _, hok => by
    obtain ⟨m, rfl⟩ : ∃ m, remaining = m + 1 := ⟨remaining - 1, by omega⟩
    rw [Nat.add_zero] at hok
    simp [retry_loop, hok]
  | k + 1, attempt, remaining, hk, htr, hok => by
    obtain ⟨m, rfl⟩ : ∃ m, remaining = m + 1 := ⟨remaining - 1, by omega⟩
    have h0 : (f attempt).isTransient = true := by
      simpa using htr 0 (Nat.succ_pos _)
    cases hf : f attempt with
    | ok w => rw [hf] at h0; simp [Outcome.isTransient] at h0
    | fatal e => rw [hf] at h0; simp [Outcome.isTransient] at h0
    | transient e =>
      have ih := retry_loop_success f R d v k (attempt + 1) m (by omega)
        (fun i hi => by
          have := htr (i + 1) (by omega)
          rwa [← Nat.add_assoc, Nat.add_right_comm attempt i 1] at this)
        (by rwa [← Nat.add_assoc, Nat.add_right_comm attempt k 1] at hok)
      simp [retry_loop, hf, ih, Nat.succ_mul]

theorem retry_loop_fatal {α : Type} (f : Nat → Outcome α) (R d : Nat) (e : String) :
    ∀ k attempt remaining, k < remaining →
      (∀ i, i < k → (f (attempt + i)).isTransient = true) →
      f (attempt + k) = Outcome.fatal e →
      retry_loop f R d attempt remaining = (RetryOutcome.fatal e, k + 1, k * d)
  | 0, attempt, remaining, hk, _, hfa => by
    obtain ⟨m, rfl⟩ : ∃ m, remaining = m + 1 := ⟨remaining - 1, by omega⟩
    rw [Nat.add_zero] at hfa
    simp [retry_loop, hfa]
  | k + 1, attempt, remaining, hk, htr, hfa => by
    obtain ⟨m, rfl⟩ : ∃ m, remaining = m + 1 := ⟨remaining - 1, by omega⟩
    have h0 : (f attempt).isTransient = true := by
      simpa using htr 0 (Nat.succ_pos _)
    cases hf : f attempt with
    | ok w => rw [hf] at h0; simp [Outcome.isTransient] at h0
    | fatal e2 => rw [hf] at h0; simp [Outcome.isTransient] at h0
    | transient e2 =>
      have ih := retry_loop_fatal f R d e k (attempt + 1) m (by omega)
        (fun i hi => by
          have := htr (i + 1) (by omega)
          rwa [← Nat.add_assoc, Nat.add_right_comm attempt i 1] at this)
        (by rwa [← Nat.add_assoc, Nat.add_right_comm attempt k 1] at hfa)
      simp [retry_loop, hf, ih, Nat.succ_mul]

/-! ## Claim theorems: Retry Executor -/

/-- C3: if the operation fails transiently on each of its first `retries`
invocations, `retry_request` invokes it exactly `retries` times, sleeps
`delay` seconds after each failed attempt, and then raises the exhaustion
error whose message carries the attempt count `retries`. -/
theorem retry_exhausts_after_retries {α : Type} (f : Nat → Outcome α)
    (retries delay : Nat)
    (h : ∀ i, i < retries → (f i).isTransient = true) :
    retry_request f retries delay =
      (RetryOutcome.exhausted
        ("Falha após " ++ toString retries ++ " tentativas."),
       retries, retries * delay) :=
  retry_loop_exhausts f retries delay retries 0 (fun i hi => by simpa using h i hi)

/-- Witness for C3: an operation that always times out, with the default
five attempts and ten-second delay. -/
theorem retry_exhausts_after_retries_witness :
    retry_request (fun _ => Outcome.transient "timeout" (α := Nat)) 5 10 =
      (RetryOutcome.exhausted
        ("Falha após " ++ toString 5 ++ " tentativas."), 5, 5 * 10) :=
  retry_exhausts_after_retries _ 5 10 (fun _ _ => rfl)

/-- C5: if the operation fails transiently on its first `k < retries`
invocations and succeeds on attempt `k`, `retry_request` returns that
result, having invoked the operation `k + 1` times and slept only the
`k * delay` seconds of the failed attempts — no residual delay follows the
successful attempt. -/
theorem retry_returns_success {α : Type} (f : Nat → Outcome α)
    (retries delay k : Nat) (v : α)
    (hk : k < retries)
    (htr : ∀ i, i < k → (f i).isTransient = true)
    (hok : f k = Outcome.ok v) :
    retry_request f retries delay = (RetryOutcome.ok v, k + 1, k * delay) :=
  retry_loop_success f retries delay v k 0 retries hk
    (fun i hi => by simpa using htr i hi) (by simpa using hok)

/-- Witness for C5: two timeouts then success at the third attempt. -/
theorem retry_returns_success_witness :
    retry_request (fun i => if i < 2 then Outcome.transient "timeout"
      else Outcome.ok 42) 5 10 = (RetryOutcome.ok 42, 2 + 1, 2 * 10) :=
  retry_returns_success _ 5 10 2 42 (by omega)
    (fun i hi => by rw [if_pos hi]; rfl) (by rfl)

/-- C4: if the operation fails transiently on its first `k < retries`
invocations and raises a non-transient failure on attempt `k`,
`retry_request` propagates that failure from that attempt: the operation
is invoked exactly `k + 1` times and no delay is slept for the fatal
attempt (only the `k * delay` seconds of the earlier transient ones). -/
theorem retry_propagates_fatal {α : Type} (f : Nat → Outcome α)
    (retries delay k : Nat) (e : String)
    (hk : k < retries)
    (htr : ∀ i, i < k → (f i).isTransient = true)
    (hfa : f k = Outcome.fatal e) :
    retry_request f retries delay = (RetryOutcome.fatal e, k + 1, k * delay) :=
  retry_loop_fatal f retries delay e k 0 retries hk
    (fun i hi => by simpa using htr i hi) (by simpa using hfa)

/-- Witness for C4: a non-transient failure on the very first attempt is
propagated after a single invocation with no sleep at all. -/
theorem retry_propagates_fatal_witness :
    retry_request (fun _ => Outcome.fatal "auth" (α := Nat)) 5 10 =
      (RetryOutcome.fatal "auth", 0 + 1, 0 * 10) :=
  retry_propagates_fatal _ 5 10 0 "auth" (by omega)
    (fun i hi => absurd hi (Nat.not_lt_zero i)) (by rfl)

/-- C10: with `retries = 0` the loop body never runs: the exhaustion
error (carrying attempt count `0`) is raised immediately, with zero
invocations of the operation and zero seconds slept. -/
theorem retry_zero_retries {α : Type} (f : Nat → Outcome α) (delay : Nat) :
    retry_request f 0 delay =
      (RetryOutcome.exhausted
        ("Falha após " ++ toString 0 ++ " tentativas."), 0, 0) :=
  rfl

/-! ## Lemmas about the Python dict model -/

theorem keys_dictInsert (d : List (String × Option Value)) (k : String)
    (v : Option Value) :
    (dictInsert d k v).map Prod.fst =
      if d.any (fun p => p.1 = k) then d.map Prod.fst
      else d.map Prod.fst ++ [k] := by
  unfold dictInsert
  by_cases h : d.any (fun p => p.1 = k)
  · rw [if_pos h, if_pos h, List.map_map]
    exact List.map_congr_left (fun p _ => by by_cases hpk : p.1 = k <;> simp [hpk])
  · rw [if_neg h, if_neg h]
    simp

theorem mem_dictInsert {d : List (String × Option Value)} {k : String}
    {v : Option Value} {e : String × Option Value}
    (h : e ∈ dictInsert d k v) : e ∈ d ∨ e = (k, v) := by
  unfold dictInsert at h
  by_cases hc : d.any (fun p => p.1 = k)
  · rw [if_pos hc] at h
    obtain ⟨p, hp, hpe⟩ := List.mem_map.mp h
    by_cases hpk : p.1 = k
    · right; rw [if_pos hpk] at hpe; exact hpe.symm
    · left; rw [if_neg hpk] at hpe; exact hpe ▸ hp
  · rw [if_neg hc] at h
    rcases List.mem_append.mp h with h1 | h1
    · exact Or.inl h1
    · exact Or.inr (List.mem_singleton.mp h1)

theorem keys_dictInsert_superset {d : List (String × Option Value)}
    {k : String} {v : Option Value} {c : String}
    (h : c ∈ d.map Prod.fst ∨ c = k) :
    c ∈ (dictInsert d k v).map Prod.fst := by
  rw [keys_dictInsert]
  by_cases hc : d.any (fun p => p.1 = k)
  · rw [if_pos hc]
    rcases h with h | rfl
    · exact h
    · obtain ⟨p, hp, hpk⟩ := List.any_eq_true.mp hc
      exact List.mem_map.mpr ⟨p, hp, by simpa using hpk⟩
  · rw [if_neg hc]
    rcases h with h | rfl
    · exact List.mem_append.mpr (Or.inl h)
    · exact List.mem_append.mpr (Or.inr (List.mem_singleton.mpr rfl))

theorem keys_dictInsert_nodup {d : List (String × Option Value)}
    {k : String} {v : Option Value}
    (h : (d.map Prod.fst).Nodup) :
    ((dictInsert d k v).map Prod.fst).Nodup := by
  rw [keys_dictInsert]
  by_cases hc : d.any (fun p => p.1 = k)
  · rwa [if_pos hc]
  · rw [if_neg hc]
    have hk : k ∉ d.map Prod.fst := by
      intro hmem
      obtain ⟨p, hp, hpk⟩ := List.mem_map.mp hmem
      exact hc (List.any_eq_true.mpr ⟨p, hp, by simp [hpk]⟩)
    simp [List.nodup_append, h, hk]

theorem mem_dictOfPairs_foldl (ps : List (String × Option Value)) :
    ∀ d e, e ∈ ps.foldl (fun d p => dictInsert d p.1 p.2) d →
      e ∈ d ∨ e ∈ ps := by
  induction ps with
  | nil => intro d e h; exact Or.inl h
  | cons p ps ih =>
    intro d e h
    rcases ih (dictInsert d p.1 p.2) e h with h1 | h1
    · rcases mem_dictInsert h1 with h2 | h2
      · exact Or.inl h2
      · exact Or.inr (List.mem_cons.mpr (Or.inl (by rw [h2])))
    · exact Or.inr (List.mem_cons.mpr (Or.inr h1))

theorem keys_dictOfPairs_foldl_superset (ps : List (String × Option Value)) :
    ∀ d c, c ∈ d.map Prod.fst ∨ c ∈ ps.map Prod.fst →
      c ∈ (ps.foldl (fun d p => dictInsert d p.1 p.2) d).map Prod.fst := by
  induction ps with
  | nil => intro d c h; simpa using h
  | cons p ps ih =>
    intro d c h
    apply ih
    rcases h with h1 | h1
    · exact Or.inl (keys_dictInsert_superset (Or.inl h1))
    · rcases List.mem_cons.mp (by simpa using h1 :
        c ∈ p.1 :: ps.map Prod.fst) with h2 | h2
      · exact Or.inl (keys_dictInsert_superset (Or.inr h2))
      · exact Or.inr h2

theorem keys_dictOfPairs_foldl_nodup (ps : List (String × Option Value)) :
    ∀ d, (d.map Prod.fst).Nodup →
      ((ps.foldl (fun d p => dictInsert d p.1 p.2) d).map Prod.fst).Nodup := by
  induction ps with
  | nil => intro d h; exact h
  | cons p ps ih =>
    intro d h
    exact ih (dictInsert d p.1 p.2) (keys_dictInsert_nodup h)

theorem mem_dictOfPairs {ps : List (String × Option Value)}
    {e : String × Option Value} (h : e ∈ dictOfPairs ps) : e ∈ ps := by
  rcases mem_dictOfPairs_foldl ps [] e h with h1 | h1
  · exact absurd h1 (List.not_mem_nil e)
  · exact h1

theorem keys_dictOfPairs_superset {ps : List (String × Option Value)}
    {c : String} (h : c ∈ ps.map Prod.fst) :
    c ∈ (dictOfPairs ps).map Prod.fst :=
  keys_dictOfPairs_foldl_superset ps [] c (Or.inr h)

theorem keys_dictOfPairs_nodup (ps : List (String × Option Value)) :
    ((dictOfPairs ps).map Prod.fst).Nodup :=
  keys_dictOfPairs_foldl_nodup ps [] (by simp)

/-! ## Claim theorem: Roster Filter -/

/-- C7: on a roster table with `PLAYER` and `PLAYER_ID` columns,
`get_player_ids` succeeds and returns a map in which every entry comes
from a roster row whose `PLAYER` value is a member of the requested list
(mapped to that row's `PLAYER_ID`), every matching roster row contributes
its name as a key, an empty filter result yields the empty map together
with the warning, and the map never has more entries than there are
requested names. -/
theorem get_player_ids_spec (roster_df : DataFrame) (players : List String)
    (h1 : "PLAYER" ∈ roster_df.columns) (h2 : "PLAYER_ID" ∈ roster_df.columns) :
    ∃ m w, get_player_ids roster_df players = Except.ok (m, w) ∧
      (∀ e ∈ m, ∃ r ∈ roster_df.rows,
          rowGet r "PLAYER" = some (Value.str e.1) ∧
          players.contains e.1 = true ∧ rowGet r "PLAYER_ID" = e.2) ∧
      (∀ r ∈ roster_df.rows, playerMatches players r = true →
          playerKey r ∈ m.map Prod.fst) ∧
      ((roster_df.rows.filter (playerMatches players)).isEmpty = true →
          m = [] ∧ w = true) ∧
      m.length ≤ players.length := by
  by_cases hemp : (roster_df.rows.filter (playerMatches players)).isEmpty = true
  · refine ⟨[], true, ?_, ?_, ?_, ?_, ?_⟩
    · simp [get_player_ids, h1, hemp]
    · intro e he; exact absurd he (List.not_mem_nil e)
    · intro r hr hm
      exfalso
      have hmem : r ∈ roster_df.rows.filter (playerMatches players) :=
        List.mem_filter.mpr ⟨hr, hm⟩
      rw [List.isEmpty_iff] at hemp
      rw [hemp] at hmem
      exact List.not_mem_nil r hmem
    · intro _; exact ⟨rfl, rfl⟩
    · simp
  · have hent : ∀ e ∈ dictOfPairs
        ((roster_df.rows.filter (playerMatches players)).map
          (fun r => (playerKey r, rowGet r "PLAYER_ID"))),
        ∃ r ∈ roster_df.rows,
          rowGet r "PLAYER" = some (Value.str e.1) ∧
          players.contains e.1 = true ∧ rowGet r "PLAYER_ID" = e.2 := by
      intro e he
      obtain ⟨r, hrf, hre⟩ := List.mem_map.mp (mem_dictOfPairs he)
      obtain ⟨hr, hm⟩ := List.mem_filter.mp hrf
      cases hv : rowGet r "PLAYER" with
      | none => rw [playerMatches, hv] at hm; exact absurd hm (by simp)
      | some val =>
        cases val with
        | int n => rw [playerMatches, hv] at hm; exact absurd hm (by simp)
        | str p =>
          have hkey : playerKey r = p := by rw [playerKey, hv]
          have hcont : players.contains p = true := by
            rw [playerMatches, hv] at hm; exact hm
          refine ⟨r, hr, ?_, ?_, ?_⟩
          · rw [← hre, hkey, hv]
          · rw [← hre, hkey]; exact hcont
          · rw [← hre]
    refine ⟨_, false, ?_, hent, ?_, ?_, ?_⟩
    · simp [get_player_ids, h1, h2, hemp]
    · intro r hr hm
      have hp : (playerKey r, rowGet r "PLAYER_ID") ∈
          (roster_df.rows.filter (playerMatches players)).map
            (fun r => (playerKey r, rowGet r "PLAYER_ID")) :=
        List.mem_map.mpr ⟨r, List.mem_filter.mpr ⟨hr, hm⟩, rfl⟩
      exact keys_dictOfPairs_superset
        (List.mem_map.mpr ⟨(playerKey r, rowGet r "PLAYER_ID"), hp, rfl⟩)
    · intro h; exact absurd h hemp
    · have hnd := keys_dictOfPairs_nodup
        ((roster_df.rows.filter (playerMatches players)).map
          (fun r => (playerKey r, rowGet r "PLAYER_ID")))
      have hsub : (dictOfPairs
          ((roster_df.rows.filter (playerMatches players)).map
            (fun r => (playerKey r, rowGet r "PLAYER_ID")))).map Prod.fst
            ⊆ players := by
        intro c hc
        obtain ⟨e, he, rfl⟩ := List.mem_map.mp hc
        obtain ⟨r, _, _, hcont, _⟩ := hent e he
        simpa using hcont
      calc (dictOfPairs ((roster_df.rows.filter (playerMatches players)).map
            (fun r => (playerKey r, rowGet r "PLAYER_ID")))).length
          = ((dictOfPairs ((roster_df.rows.filter (playerMatches players)).map
              (fun r => (playerKey r, rowGet r "PLAYER_ID")))).map
                Prod.fst).length := (List.length_map _ _).symm
        _ ≤ players.length := (hnd.subperm hsub).length_le

/-- Witness for C7: the sample roster and the script's requested players;
all three requested names match, and the map is no longer than the
request list. -/
theorem get_player_ids_spec_witness :
    ∃ m w, get_player_ids roster0 players_config = Except.ok (m, w) ∧
      m.length ≤ players_config.length := by
  obtain ⟨m, w, hok, _, _, _, hlen⟩ :=
    get_player_ids_spec roster0 players_config (by decide) (by decide)
  exact ⟨m, w, hok, hlen⟩

/-! ## Lemmas about the Conference Aggregator -/

theorem exceptBind_ok {α β : Type} (x : α) (f : α → Except String β) :
    (Except.ok x >>= f) = f x := rfl

theorem exceptBind_error {α β : Type} (e : String) (f : α → Except String β) :
    ((Except.error e : Except String α) >>= f) = Except.error e := rfl

theorem filterEq_ok {df : DataFrame} {c : String} (v : Value)
    (h : c ∈ df.columns) :
    df.filterEq c v =
      Except.ok { columns := df.columns,
                  rows := df.rows.filter (fun r => rowGet r c = some v) } := by
  rw [DataFrame.filterEq, if_pos h]

theorem filterEq_error {df : DataFrame} {c : String} (v : Value)
    (h : c ∉ df.columns) :
    df.filterEq c v = Except.error ("KeyError: " ++ c) := by
  rw [DataFrame.filterEq, if_neg h]

theorem listar_noconf (df : DataFrame) (h : "Conference" ∉ df.columns) :
    listar_times_por_conferencia df =
      Except.error ("KeyError: " ++ "Conference") := by
  rw [listar_times_por_conferencia, filterEq_error _ h, exceptBind_error]

theorem obter_noconf (df : DataFrame) (h : "Conference" ∉ df.columns) :
    obter_classificacao_atual df =
      Except.error "A coluna Conference não está disponível no DataFrame retornado." := by
  rw [obter_classificacao_atual]
  simp only [if_neg h]

/-! ## Claim theorem: Conference Aggregator schema failure (C6) -/

/-- C6: on a standings table without a `Conference` column, both uses of
the Conference Aggregator raise before any frame is built, so no output
file is written and nothing is returned. -/
theorem conference_absent_fails (df : DataFrame)
    (h : "Conference" ∉ df.columns) :
    listar_times_por_conferencia df = Except.error ("KeyError: " ++ "Conference") ∧
    obter_classificacao_atual df =
      Except.error "A coluna Conference não está disponível no DataFrame retornado." :=
  ⟨listar_noconf df h, obter_noconf df h⟩

/-- Witness for C6: the sample standings table lacking `Conference`. -/
theorem conference_absent_fails_witness :
    listar_times_por_conferencia standingsNoConf =
        Except.error ("KeyError: " ++ "Conference") ∧
    obter_classificacao_atual standingsNoConf =
      Except.error "A coluna Conference não está disponível no DataFrame retornado." :=
  conference_absent_fails standingsNoConf (by decide)

theorem rowGet_assignRow_self (k : String) (v : Value) (r : Row) :
    rowGet (assignRow k v r) k = some v := by
  induction r with
  | nil => simp [assignRow, rowGet]
  | cons p rest ih =>
    by_cases hpk : p.1 = k
    · simpa [assignRow, hpk] using ih
    · simpa [assignRow, rowGet, hpk] using ih

theorem rowGet_assignRow_other (k : String) (v : Value) (r : Row) (c : String)
    (hck : ¬ c = k) :
    rowGet (assignRow k v r) c = rowGet r c := by
  have hkc : ¬ k = c := fun h => hck h.symm
  induction r with
  | nil => simp [assignRow, rowGet, hkc]
  | cons p rest ih =>
    by_cases hpc : p.1 = c
    · have hpk : ¬ p.1 = k := fun h => hck (hpc.symm.trans h)
      simp [assignRow, rowGet, List.filter_cons, hpk, hpc, hck]
    · by_cases hpk : p.1 = k
      · simpa [assignRow, rowGet, List.filter_cons, hpk, hpc, hkc] using ih
      · simpa [assignRow, rowGet, List.filter_cons, hpk, hpc] using ih

theorem rowGet_projRow (cs : List String) (r : Row) (c : String)
    (hnd : cs.Nodup) :
    rowGet (projRow cs r) c = if c ∈ cs then rowGet r c else none := by
  induction cs with
  | nil => simp [projRow, rowGet]
  | cons c0 cs ih =>
    have hih := ih hnd.of_cons
    simp only [projRow] at hih
    cases hv : rowGet r c0 with
    | none =>
      simp only [projRow, List.filterMap_cons, hv, Option.map_none']
      rw [hih]
      by_cases hc : c = c0
      · subst hc
        have hc0 : c ∉ cs := (List.nodup_cons.mp hnd).1
        simp [hc0, hv]
      · simp [List.mem_cons, hc]
    | some v =>
      simp only [projRow, List.filterMap_cons, hv, Option.map_some']
      by_cases hc : c = c0
      · subst hc
        simp [rowGet, hv]
      · have hc0c : ¬ c0 = c := fun h => hc h.symm
        rw [show rowGet ((c0, v) :: cs.filterMap
              (fun c => (rowGet r c).map (fun v => (c, v)))) c =
            rowGet (cs.filterMap (fun c => (rowGet r c).map (fun v => (c, v)))) c
          from by simp [rowGet, hc0c]]
        rw [hih]
        simp [List.mem_cons, hc]

theorem length_filter_add_length_filter_le {α : Type} (l : List α)
    (p q : α → Bool) (h : ∀ a, ¬(p a = true ∧ q a = true)) :
    (l.filter p).length + (l.filter q).length ≤ l.length := by
  induction l with
  | nil => simp
  | cons a l ih =>
    by_cases hp : p a = true
    · have hq : q a = false := by
        cases hq0 : q a
        · rfl
        · exact absurd ⟨hp, hq0⟩ (h a)
      simp only [List.filter_cons, hp, if_true, hq, List.length_cons]
      simp only [Bool.false_eq_true, if_false]
      omega
    · have hp' : p a = false := by
        cases hp0 : p a
        · rfl
        · exact absurd hp0 hp
      cases hq : q a
      · simp only [List.filter_cons, hp', hq, List.length_cons]
        simp only [Bool.false_eq_true, if_false]
        omega
      · simp only [List.filter_cons, hp', hq, if_true, List.length_cons]
        simp only [Bool.false_eq_true, if_false]
        omega

theorem obter_eq (df : DataFrame) (h : "Conference" ∈ df.columns) :
    obter_classificacao_atual df = Except.ok
      (DataFrame.concat
        (DataFrame.assign
          ⟨columns_required.filter (fun c => c ∈ df.columns),
           (df.rows.filter
             (fun r => rowGet r "Conference" = some (Value.str "East"))).map
             (projRow (columns_required.filter (fun c => c ∈ df.columns)))⟩
          "Conferencia" (Value.str "Leste"))
        (DataFrame.assign
          ⟨columns_required.filter (fun c => c ∈ df.columns),
           (df.rows.filter
             (fun r => rowGet r "Conference" = some (Value.str "West"))).map
             (projRow (columns_required.filter (fun c => c ∈ df.columns)))⟩
          "Conferencia" (Value.str "Oeste"))) := by
  have hall : (columns_required.filter (fun c => c ∈ df.columns)).all
      (fun c => c ∈ df.columns) = true := by
    rw [List.all_eq_true]
    intro c hc
    simpa using (List.mem_filter.mp hc).2
  have hE := filterEq_ok (Value.str "East") h
  have hW := filterEq_ok (Value.str "West") h
  simp only [obter_classificacao_atual, if_pos h, hE, hW, exceptBind_ok,
    DataFrame.select, hall, if_true]

theorem listar_eq (df : DataFrame) (hc : "Conference" ∈ df.columns)
    (hn : "TeamName" ∈ df.columns) (hi : "TeamID" ∈ df.columns) :
    listar_times_por_conferencia df = Except.ok
      (DataFrame.renameCols
        (DataFrame.concat
          (DataFrame.assign
            ⟨["TeamName", "TeamID"],
             (df.rows.filter
               (fun r => rowGet r "Conference" = some (Value.str "East"))).map
               (projRow ["TeamName", "TeamID"])⟩
            "Conferencia" (Value.str "Leste"))
          (DataFrame.assign
            ⟨["TeamName", "TeamID"],
             (df.rows.filter
               (fun r => rowGet r "Conference" = some (Value.str "West"))).map
               (projRow ["TeamName", "TeamID"])⟩
            "Conferencia" (Value.str "Oeste")))
        (fun c => if c = "TeamName" then "Nome"
                  else if c = "TeamID" then "ID" else c)) := by
  have hall : (["TeamName", "TeamID"].all (fun c => c ∈ df.columns)) = true := by
    simp [hn, hi]
  have hE := filterEq_ok (Value.str "East") hc
  have hW := filterEq_ok (Value.str "West") hc
  simp only [listar_times_por_conferencia, hE, hW, exceptBind_ok,
    DataFrame.select, hall, if_true]

theorem listar_select_error (df : DataFrame) (hc : "Conference" ∈ df.columns)
    (hmiss : ¬("TeamName" ∈ df.columns ∧ "TeamID" ∈ df.columns)) :
    listar_times_por_conferencia df =
      Except.error "KeyError: column not found" := by
  have hall : ¬ ((["TeamName", "TeamID"].all (fun c => c ∈ df.columns)) = true) := by
    intro hx
    rw [List.all_eq_true] at hx
    exact hmiss ⟨by simpa using hx "TeamName" (by simp),
                 by simpa using hx "TeamID" (by simp)⟩
  have hE := filterEq_ok (Value.str "East") hc
  simp only [listar_times_por_conferencia, hE, exceptBind_ok,
    DataFrame.select, if_neg hall, exceptBind_error]

/-! ## Claim theorems: Conference Aggregator column handling (C2) -/

/-- C2 counterexample: on a standings table that has `Conference` and
`TeamName` but lacks the desired non-partition column `TeamID`, the
conference-listing use raises a `KeyError` instead of degrading
gracefully — only the classification use filters its desired columns by
presence. -/
theorem conference_column_degradation_counterexample :
    "Conference" ∈ standingsNoTeamID.columns ∧
    "TeamName" ∈ standingsNoTeamID.columns ∧
    "TeamID" ∉ standingsNoTeamID.columns ∧
    listar_times_por_conferencia standingsNoTeamID =
      Except.error "KeyError: column not found" :=
  ⟨by decide, by decide, by decide, by rfl⟩

/-- C2 (amended): the classification use (`obter_classificacao_atual`)
selects only the desired columns actually present and succeeds whenever
`Conference` is present, failing exactly when `Conference` is absent; the
listing use (`listar_times_por_conferencia`) additionally requires
`TeamName` and `TeamID` and raises a `KeyError` when either is absent,
even with `Conference` present. -/
theorem conference_column_degradation (df : DataFrame) :
    ("Conference" ∈ df.columns →
      ∃ out, obter_classificacao_atual df = Except.ok out ∧
        out.columns =
          columns_required.filter (fun c => c ∈ df.columns) ++ ["Conferencia"]) ∧
    ("Conference" ∉ df.columns →
      ∃ e, obter_classificacao_atual df = Except.error e) ∧
    ("Conference" ∈ df.columns → "TeamName" ∈ df.columns →
      "TeamID" ∈ df.columns →
      ∃ out, listar_times_por_conferencia df = Except.ok out) ∧
    ("Conference" ∈ df.columns →
      ¬("TeamName" ∈ df.columns ∧ "TeamID" ∈ df.columns) →
      listar_times_por_conferencia df =
        Except.error "KeyError: column not found") := by
  refine ⟨?_, ?_, ?_, ?_⟩
  · intro h
    refine ⟨_, obter_eq df h, ?_⟩
    have hconfa : "Conferencia" ∉
        columns_required.filter (fun c => c ∈ df.columns) := by
      intro hmem
      have h1 := (List.mem_filter.mp hmem).1
      simp [columns_required] at h1
    simp only [DataFrame.concat, DataFrame.assign, if_neg hconfa]
    have hfilnil : ((columns_required.filter (fun c => c ∈ df.columns)) ++
        ["Conferencia"]).filter
          (fun c => ¬ c ∈ (columns_required.filter (fun c => c ∈ df.columns))
            ++ ["Conferencia"]) = [] := by
      rw [List.filter_eq_nil_iff]
      intro a ha
      simp [ha]
    rw [hfilnil, List.append_nil]
  · intro h
    exact ⟨_, obter_noconf df h⟩
  · intro hc hn hi
    exact ⟨_, listar_eq df hc hn hi⟩
  · intro hc hmiss
    exact listar_select_error df hc hmiss

/-- Witness for the amended C2: on the full sample standings the
classification use succeeds with all three desired columns; on the
table lacking `TeamID` the classification use still succeeds while the
listing use raises. -/
theorem conference_column_degradation_witness :
    (∃ out, obter_classificacao_atual standingsNoTeamID = Except.ok out ∧
        out.columns = columns_required.filter
          (fun c => c ∈ standingsNoTeamID.columns) ++ ["Conferencia"]) ∧
    (∃ out, listar_times_por_conferencia standings0 = Except.ok out) ∧
    listar_times_por_conferencia standingsNoTeamID =
      Except.error "KeyError: column not found" :=
  ⟨(conference_column_degradation standingsNoTeamID).1 (by decide),
   (conference_column_degradation standings0).2.2.1 (by decide) (by decide)
     (by decide),
   (conference_column_degradation standingsNoTeamID).2.2.2 (by decide)
     (by decide)⟩

theorem forall₂_map_self {α β : Type} (l : List α) (F : α → β)
    (P : β → α → Prop) (h : ∀ a ∈ l, P (F a) a) :
    List.Forall₂ P (l.map F) l := by
  induction l with
  | nil => exact List.Forall₂.nil
  | cons a l ih =>
    exact List.Forall₂.cons (h a (by simp)) (ih (fun b hb => h b (by simp [hb])))

theorem conf_rows_east_west_le (df : DataFrame) :
    (conf_rows df "East").length + (conf_rows df "West").length ≤
      df.rows.length := by
  unfold conf_rows
  apply length_filter_add_length_filter_le
  intro r hr
  obtain ⟨h1, h2⟩ := hr
  have e1 := of_decide_eq_true h1
  have e2 := of_decide_eq_true h2
  rw [e1] at e2
  simp at e2

theorem listar_row_facts (r : Row) (lab : Value) :
    rowGet (List.map (fun p => ((if p.1 = "TeamName" then "Nome"
        else if p.1 = "TeamID" then "ID" else p.1 : String), p.2))
      (assignRow "Conferencia" lab (projRow ["TeamName", "TeamID"] r)))
        "Conferencia" = some lab ∧
    rowGet (List.map (fun p => ((if p.1 = "TeamName" then "Nome"
        else if p.1 = "TeamID" then "ID" else p.1 : String), p.2))
      (assignRow "Conferencia" lab (projRow ["TeamName", "TeamID"] r)))
        "Nome" = rowGet r "TeamName" ∧
    rowGet (List.map (fun p => ((if p.1 = "TeamName" then "Nome"
        else if p.1 = "TeamID" then "ID" else p.1 : String), p.2))
      (assignRow "Conferencia" lab (projRow ["TeamName", "TeamID"] r)))
        "ID" = rowGet r "TeamID" := by
  cases hn : rowGet r "TeamName" <;> cases hi : rowGet r "TeamID" <;>
    simp [projRow, assignRow, rowGet, List.filterMap_cons, hn, hi]

theorem obter_row_facts (df : DataFrame) (r : Row) (lab : Value) :
    rowGet (assignRow "Conferencia" lab
      (projRow (columns_required.filter (fun c => c ∈ df.columns)) r))
        "Conferencia" = some lab ∧
    ("TeamName" ∈ df.columns →
      rowGet (assignRow "Conferencia" lab
        (projRow (columns_required.filter (fun c => c ∈ df.columns)) r))
          "TeamName" = rowGet r "TeamName") ∧
    ("WinPCT" ∈ df.columns →
      rowGet (assignRow "Conferencia" lab
        (projRow (columns_required.filter (fun c => c ∈ df.columns)) r))
          "WinPCT" = rowGet r "WinPCT") := by
  have hnd : (columns_required.filter (fun c => c ∈ df.columns)).Nodup :=
    (by decide : columns_required.Nodup).filter _
  refine ⟨rowGet_assignRow_self _ _ _, ?_, ?_⟩
  · intro hmem
    rw [rowGet_assignRow_other _ _ _ _ (by decide), rowGet_projRow _ _ _ hnd,
      if_pos (List.mem_filter.mpr ⟨by decide, by simpa using hmem⟩)]
  · intro hmem
    rw [rowGet_assignRow_other _ _ _ _ (by decide), rowGet_projRow _ _ _ hnd,
      if_pos (List.mem_filter.mpr ⟨by decide, by simpa using hmem⟩)]

theorem listar_rows_eq (df : DataFrame) (hc : "Conference" ∈ df.columns)
    (hn : "TeamName" ∈ df.columns) (hi : "TeamID" ∈ df.columns)
    (out : DataFrame) (hout : listar_times_por_conferencia df = Except.ok out) :
    out.rows = (conf_rows df "East").map (fun r =>
        List.map (fun p => ((if p.1 = "TeamName" then "Nome"
          else if p.1 = "TeamID" then "ID" else p.1 : String), p.2))
          (assignRow "Conferencia" (Value.str "Leste")
            (projRow ["TeamName", "TeamID"] r))) ++
      (conf_rows df "West").map (fun r =>
        List.map (fun p => ((if p.1 = "TeamName" then "Nome"
          else if p.1 = "TeamID" then "ID" else p.1 : String), p.2))
          (assignRow "Conferencia" (Value.str "Oeste")
            (projRow ["TeamName", "TeamID"] r))) := by
  rw [listar_eq df hc hn hi] at hout
  injection hout with hout
  subst hout
  simp [DataFrame.renameCols, DataFrame.concat, DataFrame.assign,
    conf_rows, List.map_map]
  rfl

theorem obter_rows_eq (df : DataFrame) (hc : "Conference" ∈ df.columns)
    (out : DataFrame) (hout : obter_classificacao_atual df = Except.ok out) :
    out.rows = (conf_rows df "East").map (fun r =>
        assignRow "Conferencia" (Value.str "Leste")
          (projRow (columns_required.filter (fun c => c ∈ df.columns)) r)) ++
      (conf_rows df "West").map (fun r =>
        assignRow "Conferencia" (Value.str "Oeste")
          (projRow (columns_required.filter (fun c => c ∈ df.columns)) r)) := by
  rw [obter_eq df hc] at hout
  injection hout with hout
  subst hout
  simp [DataFrame.concat, DataFrame.assign, conf_rows, List.map_map]
  rfl

/-! ## Claim theorem: Conference Aggregator partition (C8) -/

/-- C8: whenever a Conference Aggregator use succeeds, its output
consists of exactly the East rows followed by exactly the West rows of
the input (rows with any other `Conference` value are excluded), the East
block labeled `Leste` and the West block labeled `Oeste` in a new
`Conferencia` column, each output row corresponding in order to its input
row, and the output has no more rows than the input. -/
theorem conference_partition_rows (df : DataFrame) :
    (∀ out, listar_times_por_conferencia df = Except.ok out →
      out.rows.length =
        (conf_rows df "East").length + (conf_rows df "West").length ∧
      out.rows.length ≤ df.rows.length ∧
      List.Forall₂ (fun ro ri =>
          rowGet ro "Conferencia" = some (Value.str "Leste") ∧
          rowGet ro "Nome" = rowGet ri "TeamName" ∧
          rowGet ro "ID" = rowGet ri "TeamID")
        (out.rows.take (conf_rows df "East").length) (conf_rows df "East") ∧
      List.Forall₂ (fun ro ri =>
          rowGet ro "Conferencia" = some (Value.str "Oeste") ∧
          rowGet ro "Nome" = rowGet ri "TeamName" ∧
          rowGet ro "ID" = rowGet ri "TeamID")
        (out.rows.drop (conf_rows df "East").length) (conf_rows df "West")) ∧
    (∀ out, obter_classificacao_atual df = Except.ok out →
      out.rows.length =
        (conf_rows df "East").length + (conf_rows df "West").length ∧
      out.rows.length ≤ df.rows.length ∧
      List.Forall₂ (fun ro ri =>
          rowGet ro "Conferencia" = some (Value.str "Leste") ∧
          ("TeamName" ∈ df.columns →
            rowGet ro "TeamName" = rowGet ri "TeamName") ∧
          ("WinPCT" ∈ df.columns → rowGet ro "WinPCT" = rowGet ri "WinPCT"))
        (out.rows.take (conf_rows df "East").length) (conf_rows df "East") ∧
      List.Forall₂ (fun ro ri =>
          rowGet ro "Conferencia" = some (Value.str "Oeste") ∧
          ("TeamName" ∈ df.columns →
            rowGet ro "TeamName" = rowGet ri "TeamName") ∧
          ("WinPCT" ∈ df.columns → rowGet ro "WinPCT" = rowGet ri "WinPCT"))
        (out.rows.drop (conf_rows df "East").length) (conf_rows df "West")) := by
  constructor
  · intro out hout
    by_cases hc : "Conference" ∈ df.columns
    · by_cases hni : "TeamName" ∈ df.columns ∧ "TeamID" ∈ df.columns
      · obtain ⟨hn, hi⟩ := hni
        have hrows := listar_rows_eq df hc hn hi out hout
        refine ⟨?_, ?_, ?_, ?_⟩
        · rw [hrows]
          simp [List.length_append]
        · rw [hrows]
          simp only [List.length_append, List.length_map]
          exact conf_rows_east_west_le df
        · rw [hrows, List.take_left' (List.length_map _ _)]
          exact forall₂_map_self _ _ _
            (fun r _ => listar_row_facts r (Value.str "Leste"))
        · rw [hrows, List.drop_left' (List.length_map _ _)]
          exact forall₂_map_self _ _ _
            (fun r _ => listar_row_facts r (Value.str "Oeste"))
      · rw [listar_select_error df hc hni] at hout
        simp at hout
    · rw [listar_noconf df hc] at hout
      simp at hout
  · intro out hout
    by_cases hc : "Conference" ∈ df.columns
    · have hrows := obter_rows_eq df hc out hout
      refine ⟨?_, ?_, ?_, ?_⟩
      · rw [hrows]
        simp [List.length_append]
      · rw [hrows]
        simp only [List.length_append, List.length_map]
        exact conf_rows_east_west_le df
      · rw [hrows, List.take_left' (List.length_map _ _)]
        exact forall₂_map_self _ _ _
          (fun r _ => obter_row_facts df r (Value.str "Leste"))
      · rw [hrows, List.drop_left' (List.length_map _ _)]
        exact forall₂_map_self _ _ _
          (fun r _ => obter_row_facts df r (Value.str "Oeste"))
    · rw [obter_noconf df hc] at hout
      simp at hout

/-- Witness for C8: on the sample standings (two East rows, one West row,
one unknown-conference row) the listing use succeeds and its output has
three rows, within the four input rows. -/
theorem conference_partition_rows_witness :
    listar_times_por_conferencia standings0 =
      Except.ok (DataFrame.mk ["Nome", "ID", "Conferencia"]
        [[("Nome", Value.str "Celtics"), ("ID", Value.int 1),
          ("Conferencia", Value.str "Leste")],
         [("Nome", Value.str "Knicks"), ("ID", Value.int 3),
          ("Conferencia", Value.str "Leste")],
         [("Nome", Value.str "Grizzlies"), ("ID", Value.int 2),
          ("Conferencia", Value.str "Oeste")]]) ∧
    (DataFrame.mk ["Nome", "ID", "Conferencia"]
        [[("Nome", Value.str "Celtics"), ("ID", Value.int 1),
          ("Conferencia", Value.str "Leste")],
         [("Nome", Value.str "Knicks"), ("ID", Value.int 3),
          ("Conferencia", Value.str "Leste")],
         [("Nome", Value.str "Grizzlies"), ("ID", Value.int 2),
          ("Conferencia", Value.str "Oeste")]]).rows.length ≤
      standings0.rows.length := by
  have h := (conference_partition_rows standings0).1
    (DataFrame.mk ["Nome", "ID", "Conferencia"]
        [[("Nome", Value.str "Celtics"), ("ID", Value.int 1),
          ("Conferencia", Value.str "Leste")],
         [("Nome", Value.str "Knicks"), ("ID", Value.int 3),
          ("Conferencia", Value.str "Leste")],
         [("Nome", Value.str "Grizzlies"), ("ID", Value.int 2),
          ("Conferencia", Value.str "Oeste")]]) (by rfl)
  exact ⟨by rfl, h.2.1⟩

/-! ## Lemmas about the orchestrator trace -/

theorem season_events_shape (env : Env) (teamId : Int) (players : List String)
    (season : String) (es : List Event)
    (h : season_events env teamId players season = Except.ok es) :
    ∃ pids w, get_player_ids (env.teamRoster teamId season) players =
        Except.ok (pids, w) ∧
      es = season_team_events teamId season ++
        pids.flatMap (player_events season) := by
  rw [season_events] at h
  cases hgp : get_player_ids (env.teamRoster teamId season) players with
  | error e => rw [hgp, exceptBind_error] at h; simp at h
  | ok pids =>
    rw [hgp, exceptBind_ok] at h
    injection h with h
    refine ⟨pids.1, pids.2, ?_, h.symm⟩
    rfl

theorem count_player_events_sleep3 (pids : List (String × Option Value))
    (season : String) :
    (pids.flatMap (player_events season)).count (Event.sleep 3) =
      pids.length := by
  induction pids with
  | nil => rfl
  | cons pp pids ih =>
    rw [List.flatMap_cons, List.count_append, ih]
    have h1 : (player_events season pp).count (Event.sleep 3) = 1 := rfl
    rw [h1, List.length_cons]
    omega

theorem count_player_events_sleep2 (pids : List (String × Option Value))
    (season : String) :
    (pids.flatMap (player_events season)).count (Event.sleep 2) = 0 := by
  induction pids with
  | nil => rfl
  | cons pp pids ih =>
    rw [List.flatMap_cons, List.count_append, ih]
    have h1 : (player_events season pp).count (Event.sleep 2) = 0 := rfl
    rw [h1]

theorem pacing_ok_player_events (pids : List (String × Option Value))
    (season : String) :
    pacing_ok (pids.flatMap (player_events season)) = true := by
  induction pids with
  | nil => rfl
  | cons pp pids ih =>
    simp only [List.flatMap_cons, player_events, List.cons_append]
    simp only [pacing_ok]
    exact ih

theorem season_events_no_standings (env : Env) (teamId : Int)
    (players : List String) (season : String) (es : List Event)
    (h : season_events env teamId players season = Except.ok es) :
    Event.fetchLeagueStandings ∉ es := by
  obtain ⟨pids, w, _, hes⟩ :=
    season_events_shape env teamId players season es h
  subst hes
  intro hmem
  rcases List.mem_append.mp hmem with h1 | h1
  · simp [season_team_events] at h1
  · obtain ⟨pp, _, h2⟩ := List.mem_flatMap.mp h1
    simp [player_events] at h2

theorem seasons_events_no_standings (env : Env) :
    ∀ l ss, seasons_events env l = Except.ok ss →
      Event.fetchLeagueStandings ∉ ss
  | [], ss, h => by
    simp only [seasons_events] at h
    injection h with h
    subst h
    simp
  | s :: rest, ss, h => by
    simp only [seasons_events] at h
    cases h1 : season_events env team_id players_config s with
    | error e => rw [h1, exceptBind_error] at h; simp at h
    | ok es =>
      rw [h1, exceptBind_ok] at h
      cases h2 : seasons_events env rest with
      | error e => rw [h2, exceptBind_error] at h; simp at h
      | ok esR =>
        rw [h2, exceptBind_ok] at h
        injection h with h
        subst h
        intro hmem
        rcases List.mem_append.mp hmem with hm | hm
        · exact season_events_no_standings env team_id players_config s es
            h1 hm
        · exact seasons_events_no_standings env rest esR h2 hm

theorem standings_events_ok_eq (env : Env) (cs : List Event)
    (h : standings_events env = Except.ok cs) :
    cs = [Event.fetchLeagueStandings,
          Event.persist "data/raw/times_por_conferencia.csv",
          Event.fetchLeagueStandings,
          Event.persist "data/raw/classificacao_por_conferencia.csv"] := by
  rw [standings_events] at h
  cases hl : listar_times_por_conferencia env.standings with
  | error e => rw [hl, exceptBind_error] at h; simp at h
  | ok a =>
    rw [hl, exceptBind_ok] at h
    cases ho : obter_classificacao_atual env.standings with
    | error e => rw [ho, exceptBind_error] at h; simp at h
    | ok b =>
      rw [ho, exceptBind_ok] at h
      injection h with h
      exact h.symm

/-! ## Claim theorem: per-season pacing (C9) -/

/-- C9: in a successful season iteration, every persisted fetch is
immediately followed by a pacing sleep; there are exactly two 2-second
sleeps (team game log, team roster) and exactly one 3-second sleep per
matched player — in particular three 3-second sleeps when three players
match. -/
theorem season_pacing (env : Env) (teamId : Int) (players : List String)
    (season : String) (es : List Event)
    (h : season_events env teamId players season = Except.ok es) :
    ∃ pids w, get_player_ids (env.teamRoster teamId season) players =
        Except.ok (pids, w) ∧
      es.count (Event.sleep 2) = 2 ∧
      es.count (Event.sleep 3) = pids.length ∧
      (pids.length = 3 → es.count (Event.sleep 3) = 3) ∧
      pacing_ok es = true := by
  obtain ⟨pids, w, hgp, hes⟩ :=
    season_events_shape env teamId players season es h
  subst hes
  have h2 : (season_team_events teamId season).count (Event.sleep 2) = 2 := rfl
  have h3 : (season_team_events teamId season).count (Event.sleep 3) = 0 := rfl
  refine ⟨pids, w, hgp, ?_, ?_, ?_, ?_⟩
  · rw [List.count_append, h2, count_player_events_sleep2]
  · rw [List.count_append, h3, count_player_events_sleep3]
    omega
  · intro hlen
    rw [List.count_append, h3, count_player_events_sleep3, hlen]
  · simp only [season_team_events, List.cons_append]
    simp only [pacing_ok]
    exact pacing_ok_player_events pids season

/-- Witness for C9: the sample environment, whose roster matches all
three requested players, for the first configured season. -/
theorem season_pacing_witness :
    ∃ es, season_events env0 team_id players_config "2023-24" =
        Except.ok es ∧
      es.count (Event.sleep 2) = 2 ∧ es.count (Event.sleep 3) = 3 ∧
      pacing_ok es = true := by
  obtain ⟨pids, w, hgp, h2, h3, _, hp⟩ :=
    season_pacing env0 team_id players_config "2023-24" _ rfl
  have hconc : get_player_ids (env0.teamRoster team_id "2023-24")
      players_config = Except.ok
        ([("Ja Morant", some (Value.int 1)),
          ("Desmond Bane", some (Value.int 2)),
          ("Jaren Jackson Jr.", some (Value.int 3))], false) := rfl
  have hh := hconc.symm.trans hgp
  injection hh with hh
  injection hh with ha hb
  refine ⟨_, rfl, h2, ?_, hp⟩
  rw [h3, ← ha]
  rfl

/-! ## Claim theorems: standings fetch count (C1) -/

/-- C1 counterexample: in a run where every fetch succeeds, the league
standings endpoint is queried twice (once inside each Conference
Aggregator call), not once. -/
theorem standings_fetched_once_counterexample :
    (main_events env0).map
      (fun tr => tr.count Event.fetchLeagueStandings) = Except.ok 2 ∧
    (main_events env0).map
      (fun tr => tr.count Event.fetchLeagueStandings) ≠ Except.ok 1 := by
  constructor
  · rfl
  · intro h
    rw [show (main_events env0).map
        (fun tr => tr.count Event.fetchLeagueStandings) = Except.ok 2
      from rfl] at h
    simp at h

/-- C1 (amended): after all seasons are processed, the run fetches the
league standings twice — once inside the conference-listing call and once
inside the classification call — each immediately persisted, and no
standings fetch happens during the seasons. -/
theorem standings_fetched_twice (env : Env) (tr : List Event)
    (h : main_events env = Except.ok tr) :
    tr.count Event.fetchLeagueStandings = 2 ∧
    ∃ pre, tr = pre ++
        [Event.fetchLeagueStandings,
         Event.persist "data/raw/times_por_conferencia.csv",
         Event.fetchLeagueStandings,
         Event.persist "data/raw/classificacao_por_conferencia.csv"] ∧
      Event.fetchLeagueStandings ∉ pre := by
  rw [main_events] at h
  cases hs : seasons_events env seasons with
  | error e => rw [hs, exceptBind_error] at h; simp at h
  | ok ss =>
    rw [hs, exceptBind_ok] at h
    cases hc : standings_events env with
    | error e => rw [hc, exceptBind_error] at h; simp at h
    | ok cs =>
      rw [hc, exceptBind_ok] at h
      injection h with h
      subst h
      have h0 : Event.fetchLeagueStandings ∉ ss :=
        seasons_events_no_standings env seasons ss hs
      rw [standings_events_ok_eq env cs hc]
      refine ⟨?_, ss, rfl, h0⟩
      rw [List.count_append, List.count_eq_zero.mpr h0]
      rfl

/-- Witness for the amended C1: the sample environment's full run. -/
theorem standings_fetched_twice_witness :
    ∃ tr, main_events env0 = Except.ok tr ∧
      tr.count Event.fetchLeagueStandings = 2 := by
  obtain ⟨hcount, _⟩ := standings_fetched_twice env0 _ rfl
  exact ⟨_, rfl, hcount⟩
